import Mathlib

/-!
Shallow embedding of the checke-rs checkers engine (modules `bitboard`,
`board`, `turn`, `position` of the crate, the ones compiled by `lib.rs`),
together with theorems settling the specification claims.

Bitboards are 64-bit unsigned values in the source; every operation used here
(AND, OR, XOR of values below 2^64) stays below 2^64, so they are embedded as
plain `Nat` with `Nat.land` / `Nat.lor` / `Nat.xor`.
-/

namespace CheckeRs

/-- `Player` enum from `board.rs`. -/
inductive Player where
  | Red
  | Black
deriving DecidableEq

/-- `BitBoard::used_cells` / `CellIter` from `bitboard.rs`: one single-bit value
per set bit of the board, in ascending bit-index order (the iterator scans
indices `0..64` and keeps those whose bit is set). -/
def used_cells (b : Nat) : List Nat :=
  ((List.range 64).filter (fun i => Nat.land b (2 ^ i) != 0)).map (fun i => 2 ^ i)

/-- Helper assembling a 64-bit board value from its eight bytes, most
significant byte first, mirroring the `0b…_…` byte grouping of the Rust
binary literals. -/
def bb8 (r1 r2 r3 r4 r5 r6 r7 r8 : Nat) : Nat :=
  ((((((r1 * 256 + r2) * 256 + r3) * 256 + r4) * 256 + r5) * 256 + r6) * 256 + r7) * 256 + r8

/-- `Square` from `position.rs`: the 32 playable squares, numbered 1–32.
`Fin 32` holds the number minus one, so `Square.to_number s = s.val + 1`. -/
abbrev Square := Fin 32

/-- `Square::to_number` from `position.rs`. -/
def Square.to_number (s : Square) : Nat := s.val + 1

/-- The single-bit values of `impl From<Square> for MonoBitBoard`
(`position.rs` lines 82–120), listed for squares 1,2,…,32 in order. -/
def SQUARE_BITS : List Nat := [
  0x4000000000000000,
  0x1000000000000000,
  0x400000000000000,
  0x100000000000000,
  0x80000000000000,
  0x20000000000000,
  0x8000000000000,
  0x2000000000000,
  0x400000000000,
  0x100000000000,
  0x40000000000,
  0x10000000000,
  0x8000000000,
  0x2000000000,
  0x800000000,
  0x200000000,
  0x40000000,
  0x10000000,
  0x4000000,
  0x1000000,
  0x800000,
  0x200000,
  0x80000,
  0x20000,
  0x4000,
  0x1000,
  0x400,
  0x100,
  0x80,
  0x20,
  0x8,
  0x2
]

/-- `MonoBitBoard::from(square)`: the fixed square→bit table. -/
def square_to_mono (s : Square) : Nat := SQUARE_BITS.getD s.val 0

/-- `TryFrom<MonoBitBoard> for Square`: scan `Square::iter()` for the square
whose bit equals the given bitboard (`position.rs` lines 141–151). -/
def square_from_mono (b : Nat) : Option Square :=
  (List.finRange 32).find? (fun s => square_to_mono s == b)

/-- `Move` from `position.rs`: a source and destination single-bit board. -/
structure Move where
  source : Nat
  destination : Nat
deriving DecidableEq

/-- `Move::new` (`position.rs` lines 164–166): stores the two bitboards with
no further check. -/
def Move.new (source destination : Nat) : Move := ⟨source, destination⟩

/-- `Move::from_squares` (`position.rs` lines 171–175). -/
def Move.from_squares (source destination : Square) : Move :=
  ⟨square_to_mono source, square_to_mono destination⟩

/-- `Move::to_bitboard`: `source | destination`. -/
def Move.to_bitboard (m : Move) : Nat := Nat.lor m.source m.destination

/-- `MoveError` from `position.rs`. -/
inductive MoveError where
  | InvalidConstruction
  | NoPieceAtSource
  | WrongPlayerPiece
  | IllegalDestination
  | GameConcluded
  | DestinationOccupied
deriving DecidableEq

/-- `BoardState` from `board.rs`. -/
structure BoardState where
  active_player : Player
  red_pieces : Nat
  black_pieces : Nat
  kings : Nat
deriving DecidableEq

/-- `INITIAL_RED_PIECES` from `board.rs`. -/
def INITIAL_RED_PIECES : Nat :=
  bb8 0b00000000 0b00000000 0b00000000 0b00000000 0b00000000 0b10101010 0b01010101 0b10101010

/-- `INITIAL_BLACK_PIECES` from `board.rs`. -/
def INITIAL_BLACK_PIECES : Nat :=
  bb8 0b01010101 0b10101010 0b01010101 0b00000000 0b00000000 0b00000000 0b00000000 0b00000000

/-- `INITIAL_KINGS` from `board.rs`. -/
def INITIAL_KINGS : Nat := 0

/-- `impl Default for BoardState`. -/
def BoardState.start : BoardState :=
  ⟨Player.Black, INITIAL_RED_PIECES, INITIAL_BLACK_PIECES, INITIAL_KINGS⟩

/-- `BoardState::empty`. -/
def BoardState.emptyState : BoardState := ⟨Player.Black, 0, 0, 0⟩

/-- `BoardState::pieces_by_player`. -/
def BoardState.pieces_by_player (s : BoardState) (p : Player) : Nat :=
  match p with
  | Player.Red => s.red_pieces
  | Player.Black => s.black_pieces

/-- `BoardState::next_player`. -/
def BoardState.next_player (s : BoardState) : Player :=
  match s.active_player with
  | Player.Red => Player.Black
  | Player.Black => Player.Red

/-- `BoardState::current_player_pieces`. -/
def BoardState.current_player_pieces (s : BoardState) : Nat :=
  s.pieces_by_player s.active_player

/-- `BoardState::is_current_player_piece`. -/
def BoardState.is_current_player_piece (s : BoardState) (b : Nat) : Bool :=
  Nat.land s.current_player_pieces b != 0

/-- `BoardState::all_pieces`. -/
def BoardState.all_pieces (s : BoardState) : Nat :=
  Nat.lor s.red_pieces s.black_pieces

/-- `BoardState::is_piece`. -/
def BoardState.is_piece (s : BoardState) (b : Nat) : Bool :=
  Nat.land s.all_pieces b != 0

/-- `BoardState::is_red_piece`. -/
def BoardState.is_red_piece (s : BoardState) (b : Nat) : Bool :=
  Nat.land s.red_pieces b != 0

/-- `BoardState::is_black_piece`. -/
def BoardState.is_black_piece (s : BoardState) (b : Nat) : Bool :=
  Nat.land s.black_pieces b != 0

/-- `BoardState::all_kings`. -/
def BoardState.all_kings (s : BoardState) : Nat := s.kings

/-- `BoardState::red_kings` (`board.rs` line 124–126):
`self.red_pieces() & self.all_kings()`. -/
def BoardState.red_kings (s : BoardState) : Nat :=
  Nat.land s.red_pieces s.all_kings

/-- `BoardState::black_kings` (`board.rs` line 129–131): the source computes
`self.black_pieces() & self.all_pieces()` — note `all_pieces`, not
`all_kings`. Embedded exactly as written. -/
def BoardState.black_kings (s : BoardState) : Nat :=
  Nat.land s.black_pieces s.all_pieces

/-- `BoardState::kings_by_player`. -/
def BoardState.kings_by_player (s : BoardState) (p : Player) : Nat :=
  match p with
  | Player.Red => s.red_kings
  | Player.Black => s.black_kings

/-- `BoardState::is_king`. -/
def BoardState.is_king (s : BoardState) (b : Nat) : Bool :=
  Nat.land s.all_kings b != 0

/-- `RED_PIECE_MOVES` table from `position.rs` (lines 245-278), entry `i` giving the pseudo-legal destination set of a red non-king piece on square `i+1`. -/
def RED_PIECE_MOVES : List Nat := [
  bb8 0b00000000 0b00000000 0b00000000 0b00000000 0b00000000 0b00000000 0b00000000 0b00000000,
  bb8 0b00000000 0b00000000 0b00000000 0b00000000 0b00000000 0b00000000 0b00000000 0b00000000,
  bb8 0b00000000 0b00000000 0b00000000 0b00000000 0b00000000 0b00000000 0b00000000 0b00000000,
  bb8 0b00000000 0b00000000 0b00000000 0b00000000 0b00000000 0b00000000 0b00000000 0b00000000,
  bb8 0b01000000 0b00000000 0b00000000 0b00000000 0b00000000 0b00000000 0b00000000 0b00000000,
  bb8 0b01010000 0b00000000 0b00000000 0b00000000 0b00000000 0b00000000 0b00000000 0b00000000,
  bb8 0b00010100 0b00000000 0b00000000 0b00000000 0b00000000 0b00000000 0b00000000 0b00000000,
  bb8 0b00000101 0b00000000 0b00000000 0b00000000 0b00000000 0b00000000 0b00000000 0b00000000,
  bb8 0b00010000 0b10100000 0b00000000 0b00000000 0b00000000 0b00000000 0b00000000 0b00000000,
  bb8 0b01000100 0b00101000 0b00000000 0b00000000 0b00000000 0b00000000 0b00000000 0b00000000,
  bb8 0b00010001 0b00001010 0b00000000 0b00000000 0b00000000 0b00000000 0b00000000 0b00000000,
  bb8 0b00000100 0b00000010 0b00000000 0b00000000 0b00000000 0b00000000 0b00000000 0b00000000,
  bb8 0b00000000 0b00100000 0b01000000 0b00000000 0b00000000 0b00000000 0b00000000 0b00000000,
  bb8 0b00000000 0b10001000 0b01010000 0b00000000 0b00000000 0b00000000 0b00000000 0b00000000,
  bb8 0b00000000 0b00100010 0b00010100 0b00000000 0b00000000 0b00000000 0b00000000 0b00000000,
  bb8 0b00000000 0b00001000 0b00000101 0b00000000 0b00000000 0b00000000 0b00000000 0b00000000,
  bb8 0b00000000 0b00000000 0b00010000 0b10100000 0b00000000 0b00000000 0b00000000 0b00000000,
  bb8 0b00000000 0b00000000 0b01000100 0b00101000 0b00000000 0b00000000 0b00000000 0b00000000,
  bb8 0b00000000 0b00000000 0b00010001 0b00001010 0b00000000 0b00000000 0b00000000 0b00000000,
  bb8 0b00000000 0b00000000 0b00000100 0b00000010 0b00000000 0b00000000 0b00000000 0b00000000,
  bb8 0b00000000 0b00000000 0b00000000 0b00100000 0b01000000 0b00000000 0b00000000 0b00000000,
  bb8 0b00000000 0b00000000 0b00000000 0b10001000 0b01010000 0b00000000 0b00000000 0b00000000,
  bb8 0b00000000 0b00000000 0b00000000 0b00100010 0b00010100 0b00000000 0b00000000 0b00000000,
  bb8 0b00000000 0b00000000 0b00000000 0b00001000 0b00000101 0b00000000 0b00000000 0b00000000,
  bb8 0b00000000 0b00000000 0b00000000 0b00000000 0b00010000 0b10100000 0b00000000 0b00000000,
  bb8 0b00000000 0b00000000 0b00000000 0b00000000 0b01000100 0b00101000 0b00000000 0b00000000,
  bb8 0b00000000 0b00000000 0b00000000 0b00000000 0b00010001 0b00001010 0b00000000 0b00000000,
  bb8 0b00000000 0b00000000 0b00000000 0b00000000 0b00000100 0b00000010 0b00000000 0b00000000,
  bb8 0b00000000 0b00000000 0b00000000 0b00000000 0b00000000 0b00100000 0b01000000 0b00000000,
  bb8 0b00000000 0b00000000 0b00000000 0b00000000 0b00000000 0b10001000 0b01010000 0b00000000,
  bb8 0b00000000 0b00000000 0b00000000 0b00000000 0b00000000 0b00100010 0b00010100 0b00000000,
  bb8 0b00000000 0b00000000 0b00000000 0b00000000 0b00000000 0b00001000 0b00000101 0b00000000
]

/-- `BLACK_PIECE_MOVES` table from `position.rs` (lines 280-313). -/
def BLACK_PIECE_MOVES : List Nat := [
  bb8 0b00000000 0b10100000 0b00010000 0b00000000 0b00000000 0b00000000 0b00000000 0b00000000,
  bb8 0b00000000 0b00101000 0b01000100 0b00000000 0b00000000 0b00000000 0b00000000 0b00000000,
  bb8 0b00000000 0b00001010 0b00010001 0b00000000 0b00000000 0b00000000 0b00000000 0b00000000,
  bb8 0b00000000 0b00000010 0b00000100 0b00000000 0b00000000 0b00000000 0b00000000 0b00000000,
  bb8 0b00000000 0b00000000 0b01000000 0b00100000 0b00000000 0b00000000 0b00000000 0b00000000,
  bb8 0b00000000 0b00000000 0b01010000 0b10001000 0b00000000 0b00000000 0b00000000 0b00000000,
  bb8 0b00000000 0b00000000 0b00010100 0b00100010 0b00000000 0b00000000 0b00000000 0b00000000,
  bb8 0b00000000 0b00000000 0b00000101 0b00001000 0b00000000 0b00000000 0b00000000 0b00000000,
  bb8 0b00000000 0b00000000 0b00000000 0b10100000 0b00010000 0b00000000 0b00000000 0b00000000,
  bb8 0b00000000 0b00000000 0b00000000 0b00101000 0b01000100 0b00000000 0b00000000 0b00000000,
  bb8 0b00000000 0b00000000 0b00000000 0b00001010 0b00010001 0b00000000 0b00000000 0b00000000,
  bb8 0b00000000 0b00000000 0b00000000 0b00000010 0b00000100 0b00000000 0b00000000 0b00000000,
  bb8 0b00000000 0b00000000 0b00000000 0b00000000 0b01000000 0b00100000 0b00000000 0b00000000,
  bb8 0b00000000 0b00000000 0b00000000 0b00000000 0b01010000 0b10001000 0b00000000 0b00000000,
  bb8 0b00000000 0b00000000 0b00000000 0b00000000 0b00010100 0b00100010 0b00000000 0b00000000,
  bb8 0b00000000 0b00000000 0b00000000 0b00000000 0b00000101 0b00001000 0b00000000 0b00000000,
  bb8 0b00000000 0b00000000 0b00000000 0b00000000 0b00000000 0b10100000 0b00010000 0b00000000,
  bb8 0b00000000 0b00000000 0b00000000 0b00000000 0b00000000 0b00101000 0b01000100 0b00000000,
  bb8 0b00000000 0b00000000 0b00000000 0b00000000 0b00000000 0b00001010 0b00010001 0b00000000,
  bb8 0b00000000 0b00000000 0b00000000 0b00000000 0b00000000 0b00000010 0b00000100 0b00000000,
  bb8 0b00000000 0b00000000 0b00000000 0b00000000 0b00000000 0b00000000 0b01000000 0b00100000,
  bb8 0b00000000 0b00000000 0b00000000 0b00000000 0b00000000 0b00000000 0b01010000 0b10001000,
  bb8 0b00000000 0b00000000 0b00000000 0b00000000 0b00000000 0b00000000 0b00010100 0b00100010,
  bb8 0b00000000 0b00000000 0b00000000 0b00000000 0b00000000 0b00000000 0b00000101 0b00001000,
  bb8 0b00000000 0b00000000 0b00000000 0b00000000 0b00000000 0b00000000 0b00000000 0b10100000,
  bb8 0b00000000 0b00000000 0b00000000 0b00000000 0b00000000 0b00000000 0b00000000 0b00101000,
  bb8 0b00000000 0b00000000 0b00000000 0b00000000 0b00000000 0b00000000 0b00000000 0b00001010,
  bb8 0b00000000 0b00000000 0b00000000 0b00000000 0b00000000 0b00000000 0b00000000 0b00000010,
  bb8 0b00000000 0b00000000 0b00000000 0b00000000 0b00000000 0b00000000 0b00000000 0b00000000,
  bb8 0b00000000 0b00000000 0b00000000 0b00000000 0b00000000 0b00000000 0b00000000 0b00000000,
  bb8 0b00000000 0b00000000 0b00000000 0b00000000 0b00000000 0b00000000 0b00000000 0b00000000,
  bb8 0b00000000 0b00000000 0b00000000 0b00000000 0b00000000 0b00000000 0b00000000 0b00000000
]

/-- `KING_MOVES` table from `position.rs` (lines 315-348); in the source every entry is the zero bitboard. -/
def KING_MOVES : List Nat := [
  bb8 0b00000000 0b00000000 0b00000000 0b00000000 0b00000000 0b00000000 0b00000000 0b00000000,
  bb8 0b00000000 0b00000000 0b00000000 0b00000000 0b00000000 0b00000000 0b00000000 0b00000000,
  bb8 0b00000000 0b00000000 0b00000000 0b00000000 0b00000000 0b00000000 0b00000000 0b00000000,
  bb8 0b00000000 0b00000000 0b00000000 0b00000000 0b00000000 0b00000000 0b00000000 0b00000000,
  bb8 0b00000000 0b00000000 0b00000000 0b00000000 0b00000000 0b00000000 0b00000000 0b00000000,
  bb8 0b00000000 0b00000000 0b00000000 0b00000000 0b00000000 0b00000000 0b00000000 0b00000000,
  bb8 0b00000000 0b00000000 0b00000000 0b00000000 0b00000000 0b00000000 0b00000000 0b00000000,
  bb8 0b00000000 0b00000000 0b00000000 0b00000000 0b00000000 0b00000000 0b00000000 0b00000000,
  bb8 0b00000000 0b00000000 0b00000000 0b00000000 0b00000000 0b00000000 0b00000000 0b00000000,
  bb8 0b00000000 0b00000000 0b00000000 0b00000000 0b00000000 0b00000000 0b00000000 0b00000000,
  bb8 0b00000000 0b00000000 0b00000000 0b00000000 0b00000000 0b00000000 0b00000000 0b00000000,
  bb8 0b00000000 0b00000000 0b00000000 0b00000000 0b00000000 0b00000000 0b00000000 0b00000000,
  bb8 0b00000000 0b00000000 0b00000000 0b00000000 0b00000000 0b00000000 0b00000000 0b00000000,
  bb8 0b00000000 0b00000000 0b00000000 0b00000000 0b00000000 0b00000000 0b00000000 0b00000000,
  bb8 0b00000000 0b00000000 0b00000000 0b00000000 0b00000000 0b00000000 0b00000000 0b00000000,
  bb8 0b00000000 0b00000000 0b00000000 0b00000000 0b00000000 0b00000000 0b00000000 0b00000000,
  bb8 0b00000000 0b00000000 0b00000000 0b00000000 0b00000000 0b00000000 0b00000000 0b00000000,
  bb8 0b00000000 0b00000000 0b00000000 0b00000000 0b00000000 0b00000000 0b00000000 0b00000000,
  bb8 0b00000000 0b00000000 0b00000000 0b00000000 0b00000000 0b00000000 0b00000000 0b00000000,
  bb8 0b00000000 0b00000000 0b00000000 0b00000000 0b00000000 0b00000000 0b00000000 0b00000000,
  bb8 0b00000000 0b00000000 0b00000000 0b00000000 0b00000000 0b00000000 0b00000000 0b00000000,
  bb8 0b00000000 0b00000000 0b00000000 0b00000000 0b00000000 0b00000000 0b00000000 0b00000000,
  bb8 0b00000000 0b00000000 0b00000000 0b00000000 0b00000000 0b00000000 0b00000000 0b00000000,
  bb8 0b00000000 0b00000000 0b00000000 0b00000000 0b00000000 0b00000000 0b00000000 0b00000000,
  bb8 0b00000000 0b00000000 0b00000000 0b00000000 0b00000000 0b00000000 0b00000000 0b00000000,
  bb8 0b00000000 0b00000000 0b00000000 0b00000000 0b00000000 0b00000000 0b00000000 0b00000000,
  bb8 0b00000000 0b00000000 0b00000000 0b00000000 0b00000000 0b00000000 0b00000000 0b00000000,
  bb8 0b00000000 0b00000000 0b00000000 0b00000000 0b00000000 0b00000000 0b00000000 0b00000000,
  bb8 0b00000000 0b00000000 0b00000000 0b00000000 0b00000000 0b00000000 0b00000000 0b00000000,
  bb8 0b00000000 0b00000000 0b00000000 0b00000000 0b00000000 0b00000000 0b00000000 0b00000000,
  bb8 0b00000000 0b00000000 0b00000000 0b00000000 0b00000000 0b00000000 0b00000000 0b00000000,
  bb8 0b00000000 0b00000000 0b00000000 0b00000000 0b00000000 0b00000000 0b00000000 0b00000000
]

/-- `MoveGenerator::get_move_bitboard` (`position.rs` lines 377–394): look the
square up, then select the per-square table by king status and player. -/
def get_move_bitboard (board_state : BoardState) (player : Player) (cell : Nat) :
    Option Nat :=
  match square_from_mono cell with
  | none => none
  | some square =>
    let move_index := Square.to_number square - 1
    match BoardState.is_king board_state cell with
    | true => KING_MOVES.get? move_index
    | false =>
      match player with
      | Player.Red => RED_PIECE_MOVES.get? move_index
      | Player.Black => BLACK_PIECE_MOVES.get? move_index

/-- `MoveGenerator::moves_by_cell`: `get_move_bitboard(..).unwrap_or(0).used_cells()`. -/
def moves_by_cell (board_state : BoardState) (player : Player) (cell : Nat) :
    List Nat :=
  used_cells ((get_move_bitboard board_state player cell).getD 0)

/-- `MoveGenerator::by_cell` (`position.rs` lines 365–369): pair the fixed
source cell with each destination of `moves_by_cell`, in that order. -/
def by_cell (board_state : BoardState) (player : Player) (cell : Nat) :
    List Move :=
  (moves_by_cell board_state player cell).map (fun dest => Move.new cell dest)

/-- `MoveValidator::valid_piece_selection` (`position.rs` lines 440–448). -/
def valid_piece_selection (s : BoardState) (m : Move) : Except MoveError Unit :=
  if !(BoardState.is_piece s m.source) then Except.error MoveError.NoPieceAtSource
  else if !(BoardState.is_current_player_piece s m.source) then
    Except.error MoveError.WrongPlayerPiece
  else Except.ok ()

/-- `MoveValidator::valid_destination` (`position.rs` lines 450–463): the
generator is built for the state's `active_player`; a destination outside the
pseudo-legal table is `IllegalDestination`, an occupied one is
`DestinationOccupied`. The source carries a TODO noting that the check that a
jump's midpoint holds an opponent piece is not implemented; accordingly no
midpoint test appears here. -/
def valid_destination (s : BoardState) (m : Move) : Except MoveError Unit :=
  let destinations := (by_cell s s.active_player m.source).map Move.destination
  if destinations.all (fun dest => dest != m.destination) then
    Except.error MoveError.IllegalDestination
  else if Nat.land s.all_pieces m.destination != 0 then
    Except.error MoveError.DestinationOccupied
  else Except.ok ()

/-- `MoveValidator::validate` for an already-constructed `Move`
(`position.rs` lines 431–438): piece selection, then destination. -/
def validate (s : BoardState) (m : Move) : Except MoveError Unit :=
  match valid_piece_selection s m with
  | Except.error e => Except.error e
  | Except.ok _ =>
    match valid_destination s m with
    | Except.error e => Except.error e
    | Except.ok _ => Except.ok ()

/-- `true` iff `validate` returned `Ok`. -/
def validate_ok (s : BoardState) (m : Move) : Bool :=
  match validate s m with
  | Except.ok _ => true
  | Except.error _ => false

/-- The full sequence of moves yielded by `MoveIter` (`position.rs` lines
485–494). Each call of `MoveIter::next` rebuilds the `flat_map` adapter over
the remaining piece cells (`self.player_pieces.by_ref()`), so when a valid
move is found the rest of that cell's candidate moves are discarded along
with the adapter: per occupied cell (ascending bit order) at most the first
validating candidate is produced. -/
def move_iter_list (s : BoardState) (player : Player) : List Move :=
  (used_cells (BoardState.pieces_by_player s player)).filterMap
    (fun piece => (by_cell s player piece).find? (fun m => validate_ok s m))

/-- `BoardStatus` from `board.rs`. -/
inductive BoardStatus where
  | OnGoing
  | Complete (winner : Player)
deriving DecidableEq

/-- `Board` from `board.rs`: a stack of states of depth at least one,
represented structurally as the top state plus the states below it
(nearest first). `state_stack = [oldest, …, below_top, top]` in the source's
`VecDeque` order. -/
structure Board where
  top : BoardState
  below : List BoardState
deriving DecidableEq

/-- `Board::new`. -/
def Board.new (initial_state : BoardState) : Board := ⟨initial_state, []⟩

/-- `Board::default`. -/
def Board.start : Board := Board.new BoardState.start

/-- `Board::current_state`: the back of the deque. -/
def Board.current_state (b : Board) : BoardState := b.top

/-- `Board::status` (`board.rs` lines 185–192): `OnGoing` iff
`MoveIter::new(current, current.active_player).next()` is `Some`. -/
def Board.status (b : Board) : BoardStatus :=
  match move_iter_list b.current_state b.current_state.active_player with
  | [] => BoardStatus.Complete (BoardState.next_player b.current_state)
  | _ :: _ => BoardStatus.OnGoing

/-- `Board::is_game_concluded`. -/
def Board.is_game_concluded (b : Board) : Bool :=
  match Board.status b with
  | BoardStatus.Complete _ => true
  | BoardStatus.OnGoing => false

/-- The per-move state update inside the `push_turn` loop (`board.rs` lines
216–223): XOR the active player's piece set with the move's toggle mask. The
source modifies nothing else — neither the opponent's pieces nor `kings`. -/
def apply_move (s : BoardState) (m : Move) : BoardState :=
  match s.active_player with
  | Player.Red => { s with red_pieces := Nat.xor s.red_pieces m.to_bitboard }
  | Player.Black => { s with black_pieces := Nat.xor s.black_pieces m.to_bitboard }

/-- The `for m in turn.moves()` loop of `push_turn`: validate each move
against the working state, stopping at the first error, otherwise apply it
and continue. -/
def apply_moves (s : BoardState) : List Move → Except MoveError BoardState
  | [] => Except.ok s
  | m :: ms =>
    match validate s m with
    | Except.error e => Except.error e
    | Except.ok _ => apply_moves (apply_move s m) ms

/-- `Board::push_turn` (`board.rs` lines 205–229) for an already-constructed
`Turn` (its list of moves). Returns the `Result` together with the board
after the call: the stack is touched only by the final `push_back`, so on
any error the board is returned as it was. -/
def push_turn (b : Board) (turn : List Move) : Except MoveError BoardState × Board :=
  if Board.is_game_concluded b then (Except.error MoveError.GameConcluded, b)
  else
    match apply_moves b.current_state turn with
    | Except.error e => (Except.error e, b)
    | Except.ok s =>
      let s2 := { s with active_player := BoardState.next_player s }
      (Except.ok s2, ⟨s2, b.top :: b.below⟩)

/-- `Board::pop_turn` (`board.rs` lines 233–239): `None` when the stack holds
a single state, otherwise pop and return the back. Returned together with the
board after the call. -/
def pop_turn (b : Board) : Option BoardState × Board :=
  match b.below with
  | [] => (none, b)
  | r :: rs => (some b.top, ⟨r, rs⟩)

/-! ## Concrete positions used in the claim theorems -/

/-- Red piece on square 15, Black piece on square 11, Black to move: square 15
is the midpoint of the two-square diagonal jump 11→18. -/
def b2_state : BoardState :=
  ⟨Player.Black, square_to_mono ⟨14, by decide⟩, square_to_mono ⟨10, by decide⟩, 0⟩

/-- A lone Black king on square 14, a central square with diagonal neighbours
in all four directions. -/
def b4_state : BoardState :=
  ⟨Player.Black, 0, square_to_mono ⟨13, by decide⟩, square_to_mono ⟨13, by decide⟩⟩

/-- A lone Black piece on square 26; squares 30 and 31 of Black's farthest
row (row 8) are its forward diagonal neighbours. -/
def b6_state : BoardState :=
  ⟨Player.Black, 0, square_to_mono ⟨25, by decide⟩, 0⟩

/-- The turn `18x15` (no piece stands on square 18 at the start position). -/
def c3_turn : List Move := [Move.from_squares ⟨17, by decide⟩ ⟨14, by decide⟩]

/-- The turn `11x15` from the crate's own board test. -/
def c7_turn : List Move := [Move.from_squares ⟨10, by decide⟩ ⟨14, by decide⟩]

/-- The state the crate's board test expects after pushing `11x15` on the
start board: Black's piece left square 11 and occupies 15, Red to move. -/
def c7_state : BoardState :=
  ⟨Player.Red, INITIAL_RED_PIECES,
    bb8 0b01010101 0b10101010 0b01010001 0b00001000 0b00000000 0b00000000 0b00000000 0b00000000,
    0⟩

/-- The board after that push: the new state on top of the initial one. -/
def c7_board : Board := ⟨c7_state, [BoardState.start]⟩

/-! ## Claim theorems -/

/-- C1: the claim states that `MoveValidator::validate` accepts a two-square
diagonal jump only when the midpoint cell holds exactly one opponent piece,
rejecting jumps over an empty midpoint with `IllegalDestination`. The code
performs no midpoint check at all (the TODO at `position.rs` line 454 records
this): on the default opening position the jump 11→18 has an empty midpoint
(square 15 holds no piece), yet `validate` returns `Ok`. -/
theorem claim_C1 :
    BoardState.is_piece BoardState.start (square_to_mono ⟨14, by decide⟩) = false ∧
    validate BoardState.start
      (Move.from_squares ⟨10, by decide⟩ ⟨17, by decide⟩) = Except.ok () :=
  ⟨rfl, rfl⟩

/-- C2: the claim states that a successful `push_turn` of a jump clears the
jumped midpoint cell from the opponent's piece set. With a Black piece on 11,
a Red piece on the midpoint 15 and Black to move, pushing the jump 11→18
succeeds but leaves Red's piece set exactly `{15}`: the captured piece is
never removed (`push_turn` only XORs the mover's own set). -/
theorem claim_C2 :
    (push_turn (Board.new b2_state) [Move.from_squares ⟨10, by decide⟩ ⟨17, by decide⟩]).1 =
      Except.ok
        ⟨Player.Red, square_to_mono ⟨14, by decide⟩, square_to_mono ⟨17, by decide⟩, 0⟩ :=
  rfl

/-- C3: `push_turn` is atomic. Any error outcome (including a validation
failure of any move of the turn) leaves the board — hence its state stack and
`current_state` — exactly as before the call, and when the board is not
concluded the error returned is the first validation failure produced by the
sequential validate-and-apply loop. -/
theorem claim_C3 :
    (∀ (b : Board) (t : List Move) (e : MoveError),
      (push_turn b t).1 = Except.error e → (push_turn b t).2 = b) ∧
    (∀ (b : Board) (t : List Move) (e : MoveError),
      Board.is_game_concluded b = false →
      apply_moves b.current_state t = Except.error e →
      push_turn b t = (Except.error e, b)) := by
  constructor
  · intro b t e h
    by_cases hc : Board.is_game_concluded b
    · simp [push_turn, hc]
    · simp only [push_turn, hc, Bool.false_eq_true, if_false] at h ⊢
      cases hm : apply_moves b.current_state t with
      | error e2 => simp [hm]
      | ok s => rw [hm] at h; simp at h
  · intro b t e hc hm
    simp [push_turn, hc, hm]

/-- C3 witness: pushing the turn `18x15` on the start board (square 18 is
empty) fails, and the board is unchanged. -/
theorem claim_C3_witness : (push_turn Board.start c3_turn).2 = Board.start :=
  claim_C3.1 Board.start c3_turn MoveError.NoPieceAtSource rfl

/-- C4: the claim states that the pseudo-legal generator gives a king moves
and jumps in all four diagonal directions, so a king with free diagonal
neighbours has at least one pseudo-legal move. In the source the `KING_MOVES`
table is entirely zero, so every king is immobile: a Black king on central
square 14 gets no pseudo-legal move from `MoveGenerator::by_cell`. -/
theorem claim_C4 :
    (∀ i : Fin 32, KING_MOVES.getD i.val 0 = 0) ∧
    by_cell b4_state Player.Black (square_to_mono ⟨13, by decide⟩) = [] :=
  ⟨by decide, rfl⟩

/-- C5: the claim states `MoveIter` yields exactly 7 moves for Black and 7
for Red on the default starting state. The code yields 8 for Black (squares
5–8 get spurious jumps over empty midpoints, and each occupied cell yields at
most one move because `MoveIter::next` rebuilds its `flat_map` adapter per
call) and 0 for Red (`validate` checks ownership against the state's active
player, which is Black). -/
theorem claim_C5 :
    (move_iter_list BoardState.start Player.Black).length = 8 ∧
    (move_iter_list BoardState.start Player.Red).length = 0 :=
  ⟨rfl, rfl⟩

/-- C6: the claim states that a validated move ending on the mover's farthest
row promotes: the destination is added to `kings`. Pushing 26→30 for Black
(square 30 lies on row 8, Black's farthest row) succeeds but the resulting
state's `kings` bitboard is still 0 — `push_turn` never touches `kings`. -/
theorem claim_C6 :
    (push_turn (Board.new b6_state) [Move.from_squares ⟨25, by decide⟩ ⟨29, by decide⟩]).1 =
      Except.ok ⟨Player.Red, 0, square_to_mono ⟨29, by decide⟩, 0⟩ :=
  rfl

/-- C7: `pop_turn` returns `None` exactly when the stack holds only the
initial state, and after a successful `push_turn` a `pop_turn` returns the
pushed state and restores the board — hence `current_state` — to its
pre-push value. -/
theorem claim_C7 :
    (∀ b : Board, (pop_turn b).1 = none ↔ b.below = []) ∧
    (∀ (b : Board) (t : List Move) (s : BoardState) (b2 : Board),
      push_turn b t = (Except.ok s, b2) →
      (pop_turn b2).1 = some s ∧ (pop_turn b2).2 = b) := by
  constructor
  · intro b
    cases hb : b.below with
    | nil => simp [pop_turn, hb]
    | cons r rs => simp [pop_turn, hb]
  · intro b t s b2 h
    by_cases hc : Board.is_game_concluded b
    · simp [push_turn, hc] at h
    · simp only [push_turn, hc, Bool.false_eq_true, if_false] at h
      cases hm : apply_moves b.current_state t with
      | error e2 => rw [hm] at h; simp at h
      | ok s0 =>
        rw [hm] at h
        simp only [Prod.mk.injEq, Except.ok.injEq] at h
        obtain ⟨h1, h2⟩ := h
        subst h1
        subst h2
        exact ⟨rfl, rfl⟩

/-- C7 witness: pushing `11x15` on the start board produces exactly the state
and stack recorded in `c7_state`/`c7_board`, and popping returns that state
and restores the start board. -/
theorem claim_C7_witness :
    (pop_turn c7_board).1 = some c7_state ∧ (pop_turn c7_board).2 = Board.start :=
  claim_C7.2 Board.start c7_turn c7_state c7_board rfl

/-- C8: the square-to-bit mapping is a bijection: converting a `Square` to
its single-bit board and back yields the same square, and distinct squares
have distinct bits. -/
theorem claim_C8 :
    (∀ s : Square, square_from_mono (square_to_mono s) = some s) ∧
    (∀ a b : Square, square_to_mono a = square_to_mono b → a = b) := by
  constructor
  · decide
  · decide

/-- C8 witness: instantiating the injectivity half at square 1. -/
theorem claim_C8_witness : (⟨0, by decide⟩ : Square) = ⟨0, by decide⟩ :=
  claim_C8.2 ⟨0, by decide⟩ ⟨0, by decide⟩ rfl

/-- C9 counterexample: the claim states no public construction path yields a
`Move` whose source equals its destination, but `Move::from_squares` applied
to square 5 twice produces exactly such a move — no constructor checks the
invariant. -/
theorem claim_C9_counterexample :
    (Move.from_squares ⟨4, by decide⟩ ⟨4, by decide⟩).source =
      (Move.from_squares ⟨4, by decide⟩ ⟨4, by decide⟩).destination :=
  rfl

/-- C9 amended: `Move` construction stores the given source and destination
verbatim and enforces no source ≠ destination invariant; in particular the
square-pair constructor agrees with `Move::new` on the squares' bitboards for
every pair of squares, equal squares included. -/
theorem claim_C9 :
    ∀ s d : Square,
      (Move.from_squares s d).source = square_to_mono s ∧
      (Move.from_squares s d).destination = square_to_mono d ∧
      Move.new (square_to_mono s) (square_to_mono d) = Move.from_squares s d :=
  fun _ _ => ⟨rfl, rfl, rfl⟩

/-- C10: the claim states `black_kings()` returns the intersection of the
black piece set with the kings set. The source computes
`black_pieces & all_pieces()` instead of `black_pieces & all_kings()`: on the
default start state (which has no kings at all) `black_kings` returns every
black piece, while the claimed intersection is empty. -/
theorem claim_C10 :
    BoardState.black_kings BoardState.start = INITIAL_BLACK_PIECES ∧
    Nat.land BoardState.start.black_pieces BoardState.start.kings = 0 ∧
    INITIAL_BLACK_PIECES ≠ 0 :=
  ⟨rfl, rfl, by decide⟩

end CheckeRs
